import Mathlib

/-!
Shallow embedding of the `network-speed` measurement engine
(src/types/config.rs, src/types/error.rs, src/types/speed.rs,
src/monitor/interface.rs, src/monitor/sync_monitor.rs,
src/monitor/async_monitor.rs).

Conventions of the embedding:
* `std::time::Duration` and `Instant` are modelled as `Nat` counts of
  nanoseconds (a `Duration` is total nanoseconds; an `Instant` is
  nanoseconds from an arbitrary epoch).  `Duration::as_millis` is
  division by 10^6; `Instant::duration_since` is truncated subtraction,
  matching the saturating behaviour of the Rust standard library.
* `u64` counters are `Nat` values together with a `< 2^64` bound where a
  claim needs it; `u64::wrapping_sub` is `(2^64 + a - b) % 2^64`.
* The one `f64` computation in the source, the final
  `(diff as f64) / duration.as_secs_f64()` rate in `calculate_speed`,
  is embedded as the exact rational it approximates:
  `diff * 10^9 / elapsed_ns` in truncated `Nat` division, which is
  `⌊diff / elapsed_seconds⌋`.
* The Windows interface-enumeration provider is an external
  collaborator; functions that call it take its outcome
  (`Except NetworkError (List NetworkInterface)`) as an argument, and
  stateful methods take and return the state they mutate.
* Rust `String`s are modelled as `List Char`; `str::to_lowercase` is a
  character-wise `Char.toLower` (the descriptions involved are ASCII).
-/

namespace NetSpeed

/-- `2^64`, the modulus of Rust's `u64` arithmetic. -/
def U64MOD : Nat := 18446744073709551616

/-- src/types/error.rs — `NetworkError`.  The payload of `WindowsApi` is
the HRESULT code; `thiserror` message formatting is irrelevant here. -/
inductive NetworkError where
  | windowsApi (code : Nat)
  | memoryAllocation
  | invalidInterface
  | insufficientTimeElapsed (min_ms actual_ms : Nat)
  | noInterfacesFound
  | interfaceOperationFailed (reason : String)
  | calculationOverflow
  | invalidConfiguration (field : String)
  deriving DecidableEq, Repr

/-- Decidable equality for `Except` results, used to evaluate the
embedding at concrete inputs. -/
instance exceptDecEq {ε α : Type} [DecidableEq ε] [DecidableEq α] :
    DecidableEq (Except ε α) := fun x y =>
  match x, y with
  | .ok a, .ok b =>
      if h : a = b then .isTrue (by rw [h]) else .isFalse (by simp [h])
  | .error a, .error b =>
      if h : a = b then .isTrue (by rw [h]) else .isFalse (by simp [h])
  | .ok _, .error _ => .isFalse (by simp)
  | .error _, .ok _ => .isFalse (by simp)

/-- src/types/config.rs — `PrecisionMode`.  `samples` carries the
`NonZeroU8` payload as a plain `Nat`; durations are nanoseconds. -/
inductive PrecisionMode where
  | instant
  | windowed (duration : Nat)
  | samples (samples : Nat) (interval : Nat)
  deriving DecidableEq, Repr

/-- src/types/config.rs — `NetworkMonitorConfig`.  Name-filter strings
are `List Char`; durations are nanoseconds. -/
structure NetworkMonitorConfig where
  exclude_virtual : Bool
  exclude_loopback : Bool
  exclude_bluetooth : Bool
  min_measurement_interval : Nat
  max_counter_wrap_threshold : Nat
  interface_name_filters : List (List Char)
  interface_type_filters : List Nat
  include_interface_indices : List Nat
  include_interface_name_patterns : List (List Char)
  precision : PrecisionMode
  deriving DecidableEq, Repr

/-- src/types/config.rs — `PrecisionMode::validate`. -/
def PrecisionMode.validate : PrecisionMode → Except NetworkError Unit
  | .instant => .ok ()
  | .windowed duration =>
      if duration = 0 then
        .error (.invalidConfiguration "precision.windowed.duration must be > 0")
      else .ok ()
  | .samples _ interval =>
      if interval = 0 then
        .error (.invalidConfiguration "precision.samples.interval must be > 0")
      else .ok ()

/-- src/types/config.rs — `NetworkMonitorConfig::validate`.
`Duration::from_millis(10)` is `10 * 10^6` nanoseconds. -/
def NetworkMonitorConfig.validate (c : NetworkMonitorConfig) : Except NetworkError Unit :=
  if c.min_measurement_interval < 10000000 then
    .error (.invalidConfiguration "min_measurement_interval must be at least 10ms")
  else if c.max_counter_wrap_threshold = 0 then
    .error (.invalidConfiguration "max_counter_wrap_threshold cannot be zero")
  else
    match c.precision with
    | .samples s _ =>
        if s < 2 then
          .error (.invalidConfiguration "precision.samples.samples must be >= 2")
        else c.precision.validate
    | _ => c.precision.validate

/-- src/types/speed.rs — `NetworkSpeed`.  `timestamp` is an `Instant`
(nanoseconds since the epoch of the model). -/
structure NetworkSpeed where
  upload_bytes_per_sec : Nat
  download_bytes_per_sec : Nat
  timestamp : Nat
  deriving DecidableEq, Repr

/-- src/types/speed.rs — `NetworkSpeed::total_bytes_per_sec`, a
`u64::saturating_add` of the two rate fields. -/
def NetworkSpeed.total_bytes_per_sec (s : NetworkSpeed) : Nat :=
  min (s.upload_bytes_per_sec + s.download_bytes_per_sec) (U64MOD - 1)

/-- src/types/speed.rs — `InterfaceStats`. -/
structure InterfaceStats where
  bytes_sent : Nat
  bytes_received : Nat
  last_update : Nat
  deriving DecidableEq, Repr

/-- src/monitor/interface.rs — `NetworkInterface` (the fields the
filtering logic reads; `description` is a `List Char`). -/
structure NetworkInterface where
  index : Nat
  interface_type : Nat
  description : List Char
  is_operational : Bool
  bytes_sent : Nat
  bytes_received : Nat
  speed : Nat
  deriving DecidableEq, Repr

/-- Rust `str::contains(&substring)`: `needle` occurs contiguously in
`hay`. -/
def containsSub (needle : List Char) : List Char → Bool
  | [] => needle.isEmpty
  | h :: t => needle.isPrefixOf (h :: t) || containsSub needle t

/-- `str::to_lowercase`, character-wise. -/
def lowerL (l : List Char) : List Char := l.map Char.toLower

/-- src/monitor/interface.rs — `VIRTUAL_KEYWORDS` of
`is_virtual_interface_by_description`. -/
def VIRTUAL_KEYWORDS : List (List Char) :=
  ["virtual".toList, "vpn".toList, "tunnel".toList, "tap".toList, "tun".toList,
   "vmware".toList, "virtualbox".toList, "hyper-v".toList, "teredo".toList,
   "6to4".toList, "microsoft wi-fi direct virtual adapter".toList, "isatap".toList,
   "wan miniport".toList, "ras async adapter".toList, "pptp".toList, "l2tp".toList,
   "sstp".toList, "ikev2".toList, "ppp".toList, "dial-up".toList]

/-- src/monitor/interface.rs — `is_virtual_interface_by_description`. -/
def is_virtual_interface_by_description (description : List Char) : Bool :=
  VIRTUAL_KEYWORDS.any fun keyword => containsSub keyword (lowerL description)

/-- src/monitor/interface.rs — `NetworkInterface::is_virtual`. -/
def NetworkInterface.is_virtual (i : NetworkInterface) : Bool :=
  is_virtual_interface_by_description i.description

/-- src/monitor/interface.rs — `NetworkInterface::is_loopback`
(`interface_type == 24`). -/
def NetworkInterface.is_loopback (i : NetworkInterface) : Bool :=
  i.interface_type == 24

/-- src/monitor/interface.rs — `NetworkInterface::is_bluetooth`. -/
def NetworkInterface.is_bluetooth (i : NetworkInterface) : Bool :=
  containsSub "bluetooth".toList (lowerL i.description)

/-- src/monitor/interface.rs — `InterfaceManager::should_include_interface`,
with the config passed explicitly.  Each early `return false` of the
source is one arm of the nested conditional, in source order. -/
def should_include_interface (c : NetworkMonitorConfig) (i : NetworkInterface) : Bool :=
  if !c.include_interface_indices.isEmpty &&
     !c.include_interface_indices.contains i.index then
    false
  else
    let desc_lower := lowerL i.description
    if !c.include_interface_name_patterns.isEmpty &&
       !c.include_interface_name_patterns.any
          (fun pattern => containsSub (lowerL pattern) desc_lower) then
      false
    else if c.exclude_loopback && i.is_loopback then
      false
    else if c.exclude_virtual && i.is_virtual then
      false
    else if c.exclude_bluetooth && i.is_bluetooth then
      false
    else if c.interface_type_filters.contains i.interface_type then
      false
    else if !c.interface_name_filters.isEmpty &&
            c.interface_name_filters.any
              (fun filter => containsSub (lowerL filter) desc_lower) then
      false
    else
      true

/-- The Interface Directory cache (`InterfaceManager::interface_cache`),
an index-keyed map modelled as an association list. -/
abbrev InterfaceCache := List (Nat × NetworkInterface)

/-- src/monitor/interface.rs — `InterfaceManager::get_active_interfaces`.
The enumeration provider's outcome is the `enumerated` argument; the
returned cache reflects the insert-then-retain of the source: after a
successful call it holds exactly the accepted descriptors keyed by
index, and after an empty accepted set it is cleared. -/
def get_active_interfaces (c : NetworkMonitorConfig) (cache : InterfaceCache)
    (enumerated : Except NetworkError (List NetworkInterface)) :
    Except NetworkError (List NetworkInterface) × InterfaceCache :=
  match enumerated with
  | .error e => (.error e, cache)
  | .ok l =>
      let active := l.filter (should_include_interface c)
      if active.isEmpty then (.error .noInterfacesFound, [])
      else (.ok active, active.map fun i => (i.index, i))

/-- src/monitor/interface.rs — `InterfaceManager::get_total_traffic`. -/
def get_total_traffic (c : NetworkMonitorConfig) (cache : InterfaceCache)
    (enumerated : Except NetworkError (List NetworkInterface)) :
    Except NetworkError (Nat × Nat) × InterfaceCache :=
  match get_active_interfaces c cache enumerated with
  | (.error e, cache) => (.error e, cache)
  | (.ok interfaces, cache) =>
      ((.ok ((interfaces.map fun i => i.bytes_sent).sum,
             (interfaces.map fun i => i.bytes_received).sum)), cache)

/-- `Duration::as_millis() as u64` on a nanosecond count. -/
def as_millis_u64 (ns : Nat) : Nat := (ns / 1000000) % U64MOD

/-- `u64::wrapping_sub` on counters known to be `u64` values. -/
def wrapping_sub_u64 (a b : Nat) : Nat := (U64MOD + a - b) % U64MOD

/-- src/monitor/sync_monitor.rs — `NetworkMonitor`, with the owned
`InterfaceManager` flattened to its cache (its config equals the
monitor's config at all times in the source). -/
structure NetworkMonitor where
  config : NetworkMonitorConfig
  interface_cache : InterfaceCache
  previous_stats : Option InterfaceStats
  deriving DecidableEq, Repr

/-- src/monitor/sync_monitor.rs — `NetworkMonitor::with_config`
(a fresh `InterfaceManager` has an empty cache). -/
def NetworkMonitor.with_config (config : NetworkMonitorConfig) : NetworkMonitor :=
  { config := config, interface_cache := [], previous_stats := none }

/-- src/monitor/sync_monitor.rs — `NetworkMonitor::reset`. -/
def NetworkMonitor.reset (m : NetworkMonitor) : NetworkMonitor :=
  { m with previous_stats := none }

/-- src/monitor/sync_monitor.rs — `NetworkMonitor::update_config`.
On validation failure the `?` returns before anything is touched; on
success the config is cloned in, the `InterfaceManager` is rebuilt
(empty cache) and `reset` clears `previous_stats`. -/
def NetworkMonitor.update_config (m : NetworkMonitor)
    (config : NetworkMonitorConfig) : Except NetworkError Unit × NetworkMonitor :=
  match config.validate with
  | .error e => (.error e, m)
  | .ok _ =>
      (.ok (), { config := config, interface_cache := [], previous_stats := none })

/-- src/monitor/sync_monitor.rs — `NetworkMonitor::calculate_speed`.
`timestamp.duration_since(previous.last_update)` is truncated
subtraction; the `f64` rate `(diff as f64) / duration.as_secs_f64()`
cast to `u64` is embedded as the exact `⌊diff / (duration_ns / 10^9)⌋ =
diff * 10^9 / duration_ns`. -/
def NetworkMonitor.calculate_speed (m : NetworkMonitor)
    (current previous : InterfaceStats) (timestamp : Nat) :
    Except NetworkError NetworkSpeed :=
  let duration := timestamp - previous.last_update
  if duration < m.config.min_measurement_interval then
    .error (.insufficientTimeElapsed
      (as_millis_u64 m.config.min_measurement_interval) (as_millis_u64 duration))
  else if duration = 0 then
    .error (.insufficientTimeElapsed
      (as_millis_u64 m.config.min_measurement_interval) 0)
  else
    let upload_diff := wrapping_sub_u64 current.bytes_sent previous.bytes_sent
    let download_diff := wrapping_sub_u64 current.bytes_received previous.bytes_received
    if upload_diff > m.config.max_counter_wrap_threshold ∨
       download_diff > m.config.max_counter_wrap_threshold then
      .error .calculationOverflow
    else
      .ok { upload_bytes_per_sec := upload_diff * 1000000000 / duration
            download_bytes_per_sec := download_diff * 1000000000 / duration
            timestamp := timestamp }

/-- src/monitor/sync_monitor.rs — `NetworkMonitor::get_current_stats`.
`now` is the value of `Instant::now()` at the capture. -/
def NetworkMonitor.get_current_stats (m : NetworkMonitor)
    (enumerated : Except NetworkError (List NetworkInterface)) (now : Nat) :
    Except NetworkError InterfaceStats × NetworkMonitor :=
  match get_total_traffic m.config m.interface_cache enumerated with
  | (.error e, cache) => (.error e, { m with interface_cache := cache })
  | (.ok (total_sent, total_received), cache) =>
      (.ok { bytes_sent := total_sent, bytes_received := total_received,
             last_update := now },
       { m with interface_cache := cache })

/-- src/monitor/sync_monitor.rs — `NetworkMonitor::measure_instant`.
Both `?`s return the error with `previous_stats` untouched; only the
fall-through to the final assignment stores the fresh snapshot. -/
def NetworkMonitor.measure_instant (m : NetworkMonitor)
    (enumerated : Except NetworkError (List NetworkInterface)) (now : Nat) :
    Except NetworkError NetworkSpeed × NetworkMonitor :=
  match m.get_current_stats enumerated now with
  | (.error e, m) => (.error e, m)
  | (.ok current_stats, m) =>
      let timestamp := current_stats.last_update
      match m.previous_stats with
      | some previous =>
          match m.calculate_speed current_stats previous timestamp with
          | .error e => (.error e, m)
          | .ok speed =>
              (.ok speed, { m with previous_stats := some current_stats })
      | none =>
          (.ok { upload_bytes_per_sec := 0, download_bytes_per_sec := 0,
                 timestamp := now },
           { m with previous_stats := some current_stats })

/-- The tracker's `VecDeque<NetworkSpeed>` as a list, head = front =
oldest entry; `push_back` appends at the end, `pop_front` drops the
head. -/
abbrev History := List NetworkSpeed

/-- src/monitor/sync_monitor.rs — `NetworkSpeedTracker::track_speed`,
with the engine's `measure_speed()` outcome passed in and the history
threaded explicitly.  On a measurement error the `?` propagates it and
the history is untouched. -/
def track_speed (history : History) (max_history_size : Nat)
    (measurement : Except NetworkError NetworkSpeed) :
    Except NetworkError NetworkSpeed × History :=
  match measurement with
  | .error e => (.error e, history)
  | .ok speed =>
      let history := history ++ [speed]
      let history :=
        if max_history_size < history.length then history.tail else history
      (.ok speed, history)

/-- `Iterator::max_by_key`: fold keeping the element with the largest
key, the later one winning ties ("if several elements are equally
maximum, the last element is returned"). -/
def maxByKeyLast (key : NetworkSpeed → Nat) (l : List NetworkSpeed) :
    Option NetworkSpeed :=
  l.foldl
    (fun acc x =>
      match acc with
      | none => some x
      | some b => if key b ≤ key x then some x else some b)
    none

/-- src/monitor/sync_monitor.rs — `NetworkSpeedTracker::get_peak_speed`.
`now` is `Instant::now()` at the call; `cutoff_time = now - duration`
(truncated subtraction). -/
def get_peak_speed (history : History) (now duration : Nat) :
    Option NetworkSpeed :=
  if history.isEmpty then none
  else
    let cutoff_time := now - duration
    maxByKeyLast NetworkSpeed.total_bytes_per_sec
      (history.filter fun speed => cutoff_time ≤ speed.timestamp)

/-- src/monitor/async_monitor.rs — the
`Err(NetworkError::InsufficientTimeElapsed { .. })` match arm of
`collect_samples`. -/
def isInsufficientTime : NetworkError → Bool
  | .insufficientTimeElapsed _ _ => true
  | _ => false

/-- src/monitor/async_monitor.rs — the tick loop of
`AsyncNetworkMonitor::collect_samples`: each entry of `outcomes` is one
tick's `measure_speed().await` result.  `Ok` is pushed, an
`InsufficientTimeElapsed` failure hits `continue`, any other failure
returns immediately. -/
def collectLoop : List (Except NetworkError NetworkSpeed) →
    Except NetworkError (List NetworkSpeed)
  | [] => .ok []
  | .ok speed :: rest =>
      match collectLoop rest with
      | .ok samples => .ok (speed :: samples)
      | .error e => .error e
  | .error e :: rest =>
      if isInsufficientTime e then collectLoop rest else .error e

/-- src/monitor/async_monitor.rs — `AsyncNetworkMonitor::collect_samples`
over the per-tick outcomes; `sample_count` is `outcomes.length` and
`interval_ns` the tick interval in nanoseconds. -/
def collect_samples (interval_ns : Nat)
    (outcomes : List (Except NetworkError NetworkSpeed)) :
    Except NetworkError (List NetworkSpeed) :=
  match collectLoop outcomes with
  | .error e => .error e
  | .ok samples =>
      if samples.isEmpty then
        .error (.insufficientTimeElapsed (as_millis_u64 interval_ns) 0)
      else .ok samples

/-- src/monitor/async_monitor.rs — the `sample_count` derivation of
`measure_average_speed`:
`(measurement_duration.as_millis() / sample_interval.as_millis()) as usize`.
A zero divisor is a `u128` division by zero, which panics: that
partiality is the `none` case. -/
def measure_average_sample_count (measurement_duration_ns sample_interval_ns : Nat) :
    Option Nat :=
  if sample_interval_ns / 1000000 = 0 then none
  else some ((measurement_duration_ns / 1000000) / (sample_interval_ns / 1000000))

/-- src/monitor/async_monitor.rs — `measure_average_speed` up to the
`sample_count == 0` guard (which the source runs only after the
division): `none` is the division-by-zero panic, `some (.error _)` the
guard rejection, `some (.ok n)` the ongoing call with `n` samples to
collect. -/
def measure_average_speed_entry (measurement_duration_ns sample_interval_ns : Nat) :
    Option (Except NetworkError Nat) :=
  match measure_average_sample_count measurement_duration_ns sample_interval_ns with
  | none => none
  | some sample_count =>
      if sample_count = 0 then
        some (.error (.invalidConfiguration
          "measurement_duration must be greater than sample_interval"))
      else some (.ok sample_count)

/-- The successful measurements among a run of per-tick outcomes
(what `collect_samples` pushes into its `samples` vector). -/
def successesOf (outcomes : List (Except NetworkError NetworkSpeed)) :
    List NetworkSpeed :=
  outcomes.filterMap fun o => match o with | .ok s => some s | .error _ => none

/-- The first per-tick failure that is not `InsufficientTimeElapsed`
(the one `collect_samples` aborts on), if any. -/
def firstFatal : List (Except NetworkError NetworkSpeed) → Option NetworkError
  | [] => none
  | .ok _ :: rest => firstFatal rest
  | .error e :: rest => if isInsufficientTime e then firstFatal rest else some e

/-- Acceptance predicate written from the specification's wording of the
seven interface filters ("accepts the descriptor iff it survives all
filters"): the two allow-lists must match when non-empty, and none of
the five exclusion rules may match.  Stated independently of
`should_include_interface` to be compared with it. -/
def accepts_spec (c : NetworkMonitorConfig) (i : NetworkInterface) : Prop :=
  (c.include_interface_indices ≠ [] → i.index ∈ c.include_interface_indices) ∧
  (c.include_interface_name_patterns ≠ [] →
    ∃ p ∈ c.include_interface_name_patterns,
      containsSub (lowerL p) (lowerL i.description) = true) ∧
  ¬(c.exclude_loopback = true ∧ i.is_loopback = true) ∧
  ¬(c.exclude_virtual = true ∧ i.is_virtual = true) ∧
  ¬(c.exclude_bluetooth = true ∧ i.is_bluetooth = true) ∧
  i.interface_type ∉ c.interface_type_filters ∧
  ¬∃ f ∈ c.interface_name_filters,
      containsSub (lowerL f) (lowerL i.description) = true

/-! Concrete fixtures used by counterexamples and witnesses. -/

/-- A valid configuration with no filtering at all (every exclusion
off, every list empty), `Instant` precision, 100 ms minimum interval. -/
def cfgA : NetworkMonitorConfig :=
  { exclude_virtual := false, exclude_loopback := false,
    exclude_bluetooth := false,
    min_measurement_interval := 100000000,
    max_counter_wrap_threshold := 4611686018427387904,
    interface_name_filters := [], interface_type_filters := [],
    include_interface_indices := [], include_interface_name_patterns := [],
    precision := .instant }

/-- One ordinary Ethernet descriptor. -/
def ethA : NetworkInterface :=
  { index := 1, interface_type := 6, description := "eth".toList,
    is_operational := true, bytes_sent := 1000, bytes_received := 2000,
    speed := 0 }

/-- A fresh (`Uninitialized`) engine under `cfgA`. -/
def mA : NetworkMonitor := NetworkMonitor.with_config cfgA

/-- A warmed engine under `cfgA`: a previous snapshot taken at time 0
with both counters 0. -/
def mB : NetworkMonitor := { mA with previous_stats := some ⟨0, 0, 0⟩ }

/-- Four history entries; totals 2, 2, 2, 1 at timestamps 10, 20, 30,
40 — the last two maximal-total entries tie. -/
def hist4 : History := [⟨1, 1, 10⟩, ⟨2, 0, 20⟩, ⟨0, 2, 30⟩, ⟨1, 0, 40⟩]

/-! Helper lemmas shared by the claim theorems. -/

/-- Every validation failure carries an `InvalidConfiguration` error. -/
lemma validate_error_shape (c : NetworkMonitorConfig) (e : NetworkError)
    (h : c.validate = .error e) : ∃ f, e = .invalidConfiguration f := by
  unfold NetworkMonitorConfig.validate at h
  split at h
  · exact ⟨_, (Except.error.inj h).symm⟩
  · split at h
    · exact ⟨_, (Except.error.inj h).symm⟩
    · split at h
      · split at h
        · exact ⟨_, (Except.error.inj h).symm⟩
        · unfold PrecisionMode.validate at h
          split at h <;> first
            | exact absurd h (by simp)
            | (split at h
               · exact ⟨_, (Except.error.inj h).symm⟩
               · exact absurd h (by simp))
      · unfold PrecisionMode.validate at h
        split at h <;> first
          | exact absurd h (by simp)
          | (split at h
             · exact ⟨_, (Except.error.inj h).symm⟩
             · exact absurd h (by simp))

/-- A validated config has `min_measurement_interval` of at least 10 ms. -/
lemma validate_ok_min (c : NetworkMonitorConfig) (h : c.validate = .ok ()) :
    10000000 ≤ c.min_measurement_interval := by
  unfold NetworkMonitorConfig.validate at h
  split at h
  · exact absurd h (by simp)
  · omega

/-- The exact rational the source's `f64` rate division approximates:
`⌊d / (e / 10^9)⌋` equals truncated `Nat` division `d * 10^9 / e`. -/
lemma floor_rate (d e : Nat) :
    Nat.floor ((d : ℚ) / ((e : ℚ) / 1000000000)) = d * 1000000000 / e := by
  rw [div_div_eq_mul_div]
  rw [show ((d : ℚ) * 1000000000) = ((d * 1000000000 : ℕ) : ℚ) by push_cast; ring]
  rw [Nat.floor_div_nat, Nat.floor_natCast]

/-- `get_current_stats` touches only the interface cache: config and
`previous_stats` pass through unchanged. -/
lemma get_current_stats_state (m : NetworkMonitor)
    (enum : Except NetworkError (List NetworkInterface)) (now : Nat) :
    ((m.get_current_stats enum now).2).config = m.config ∧
    ((m.get_current_stats enum now).2).previous_stats = m.previous_stats := by
  unfold NetworkMonitor.get_current_stats
  rcases h : get_total_traffic m.config m.interface_cache enum with ⟨r, cache⟩
  rcases r with e | ⟨ts, tr⟩ <;> simp

/-- Behaviour of `measure_instant` on an engine with no previous
snapshot: a successful capture gives the zero speed and stores the
snapshot; a capture failure propagates with state otherwise unchanged. -/
lemma measure_instant_cold_eq (m : NetworkMonitor)
    (enum : Except NetworkError (List NetworkInterface)) (now : Nat)
    (hp : m.previous_stats = none) :
    (∀ c, (m.get_current_stats enum now).1 = .ok c →
       m.measure_instant enum now =
         (.ok ⟨0, 0, now⟩,
          { (m.get_current_stats enum now).2 with previous_stats := some c })) ∧
    (∀ e, (m.get_current_stats enum now).1 = .error e →
       m.measure_instant enum now = (.error e, (m.get_current_stats enum now).2)) := by
  have hst := get_current_stats_state m enum now
  unfold NetworkMonitor.measure_instant
  rcases hgc : m.get_current_stats enum now with ⟨r, m'⟩
  rw [hgc] at hst
  simp only at hst
  constructor
  · intro c hc
    simp only at hc
    subst hc
    have hpn : m'.previous_stats = none := hst.2.trans hp
    simp only [hpn]
  · intro e he
    simp only at he
    subst he
    simp only

/-- Behaviour of `measure_instant` on a warmed engine whose snapshot
capture succeeded: the stored snapshot is replaced exactly when the
rate computation succeeds. -/
lemma measure_instant_warm_eq (m : NetworkMonitor) (p c : InterfaceStats)
    (enum : Except NetworkError (List NetworkInterface)) (now : Nat)
    (hp : m.previous_stats = some p)
    (hc : (m.get_current_stats enum now).1 = .ok c) :
    (∀ e, ((m.get_current_stats enum now).2).calculate_speed c p c.last_update =
            .error e →
       m.measure_instant enum now = (.error e, (m.get_current_stats enum now).2)) ∧
    (∀ s, ((m.get_current_stats enum now).2).calculate_speed c p c.last_update =
            .ok s →
       m.measure_instant enum now =
         (.ok s,
          { (m.get_current_stats enum now).2 with previous_stats := some c })) := by
  have hst := get_current_stats_state m enum now
  unfold NetworkMonitor.measure_instant
  rcases hgc : m.get_current_stats enum now with ⟨r, m'⟩
  rw [hgc] at hst hc
  simp only at hst hc
  subst hc
  have hpp : m'.previous_stats = some p := hst.2.trans hp
  constructor
  · intro e he
    simp only at he
    simp only [hpp, he]
  · intro s hs
    simp only at hs
    simp only [hpp, hs]

/-- `(l ++ [s]).tail = l.tail ++ [s]` for non-empty `l`. -/
lemma tail_append_singleton (l : List NetworkSpeed) (s : NetworkSpeed)
    (h : l ≠ []) : (l ++ [s]).tail = l.tail ++ [s] := by
  cases l <;> simp_all

/-- Unrolling `maxByKeyLast` at the last element. -/
lemma maxByKeyLast_step (key : NetworkSpeed → Nat) (l : List NetworkSpeed)
    (y : NetworkSpeed) :
    maxByKeyLast key (l ++ [y]) =
      match maxByKeyLast key l with
      | none => some y
      | some b => if key b ≤ key y then some y else some b := by
  unfold maxByKeyLast
  rw [List.foldl_append]
  rfl

/-- `maxByKeyLast` on a non-empty list returns a maximal element after
which every element is strictly smaller — the last maximum. -/
lemma maxByKeyLast_split (key : NetworkSpeed → Nat) :
    ∀ l : List NetworkSpeed, l ≠ [] →
      ∃ s l1 l2, maxByKeyLast key l = some s ∧ l = l1 ++ s :: l2 ∧
        (∀ x ∈ l1, key x ≤ key s) ∧ (∀ x ∈ l2, key x < key s) := by
  intro l
  induction l using List.reverseRecOn with
  | nil => intro h; exact absurd rfl h
  | append_singleton l y ih =>
    intro _
    rcases eq_or_ne l [] with rfl | hl
    · exact ⟨y, [], [], by simp [maxByKeyLast], by simp, by simp, by simp⟩
    · obtain ⟨s, l1, l2, hmax, hsplit, hle, hlt⟩ := ih hl
      by_cases hk : key s ≤ key y
      · refine ⟨y, l, [], ?_, by simp, ?_, by simp⟩
        · rw [maxByKeyLast_step, hmax]
          simp [hk]
        · intro x hx
          rw [hsplit] at hx
          rcases List.mem_append.mp hx with hx | hx
          · exact le_trans (hle x hx) hk
          · rcases List.mem_cons.mp hx with rfl | hx
            · exact hk
            · exact le_trans (le_of_lt (hlt x hx)) hk
      · push_neg at hk
        refine ⟨s, l1, l2 ++ [y], ?_, ?_, hle, ?_⟩
        · rw [maxByKeyLast_step, hmax]
          simp [not_le.mpr hk]
        · rw [hsplit]
          simp
        · intro x hx
          rcases List.mem_append.mp hx with hx | hx
          · exact hlt x hx
          · rw [List.mem_singleton.mp hx]
            exact hk

/-- The tick loop of `collect_samples` returns all successful samples
when no fatal (non-`InsufficientTimeElapsed`) failure occurs, and the
first fatal failure otherwise. -/
lemma collectLoop_eq (outcomes : List (Except NetworkError NetworkSpeed)) :
    (firstFatal outcomes = none →
       collectLoop outcomes = .ok (successesOf outcomes)) ∧
    (∀ e, firstFatal outcomes = some e → collectLoop outcomes = .error e) := by
  induction outcomes with
  | nil => exact ⟨fun _ => rfl, fun e h => by simp [firstFatal] at h⟩
  | cons o rest ih =>
    rcases o with e' | s
    · by_cases hi : isInsufficientTime e' = true
      · constructor
        · intro h
          rw [firstFatal, if_pos hi] at h
          simp only [collectLoop, hi, if_pos]
          rw [show successesOf (Except.error e' :: rest) = successesOf rest from rfl]
          exact ih.1 h
        · intro e h
          rw [firstFatal, if_pos hi] at h
          simp only [collectLoop, hi, if_pos]
          exact ih.2 e h
      · constructor
        · intro h
          rw [firstFatal, if_neg hi] at h
          exact absurd h (by simp)
        · intro e h
          rw [firstFatal, if_neg hi] at h
          simp only [collectLoop, hi]
          simp only [Option.some.injEq] at h
          simp [h]
    · constructor
      · intro h
        rw [show firstFatal (Except.ok s :: rest) = firstFatal rest from rfl] at h
        simp only [collectLoop]
        rw [ih.1 h]
        rfl
      · intro e h
        rw [show firstFatal (Except.ok s :: rest) = firstFatal rest from rfl] at h
        simp only [collectLoop]
        rw [ih.2 e h]

/-! Claim theorems. -/

/-- Claim C1, counterexample: in `Instant` mode a rate-computation
failure does NOT store the fresh snapshot.  Warmed engine `mB`
(previous snapshot at time 0), capture succeeds at 50 ms yielding
snapshot ⟨1000, 2000, 50000000⟩, the diff fails with
`InsufficientTimeElapsed` (50 ms < 100 ms minimum), and
`previous_snapshot` still holds the OLD snapshot, not the fresh one —
contradicting "stores the freshly taken snapshot regardless of the
measurement's outcome". -/
theorem measure_instant_rate_error_counterexample :
    (mB.get_current_stats (.ok [ethA]) 50000000).1 =
      .ok ⟨1000, 2000, 50000000⟩ ∧
    (mB.measure_instant (.ok [ethA]) 50000000).1 =
      .error (.insufficientTimeElapsed 100 50) ∧
    (mB.measure_instant (.ok [ethA]) 50000000).2.previous_stats =
      some ⟨0, 0, 0⟩ ∧
    (mB.measure_instant (.ok [ethA]) 50000000).2.previous_stats ≠
      some ⟨1000, 2000, 50000000⟩ := by decide

/-- Claim C1 (amended): in `Instant` mode, for a warmed engine whose
snapshot capture succeeds with snapshot `c`, the engine stores `c` as
`previous_snapshot` exactly when the rate computation succeeds; on a
rate-computation error (`InsufficientTimeElapsed`,
`CalculationOverflow`) the error propagates and `previous_snapshot`
keeps its old value `some p`. -/
theorem measure_instant_snapshot_update (m : NetworkMonitor)
    (p c : InterfaceStats)
    (enum : Except NetworkError (List NetworkInterface)) (now : Nat)
    (hp : m.previous_stats = some p)
    (hc : (m.get_current_stats enum now).1 = .ok c) :
    (∀ e, ((m.get_current_stats enum now).2).calculate_speed c p
            c.last_update = .error e →
       (m.measure_instant enum now).1 = .error e ∧
       (m.measure_instant enum now).2.previous_stats = some p) ∧
    (∀ s, ((m.get_current_stats enum now).2).calculate_speed c p
            c.last_update = .ok s →
       (m.measure_instant enum now).1 = .ok s ∧
       (m.measure_instant enum now).2.previous_stats = some c) := by
  have hw := measure_instant_warm_eq m p c enum now hp hc
  have hst := get_current_stats_state m enum now
  constructor
  · intro e he
    rw [hw.1 e he]
    exact ⟨rfl, hst.2.trans hp⟩
  · intro s hs
    rw [hw.2 s hs]
    exact ⟨rfl, rfl⟩

/-- Witness for the amended claim C1 at the concrete warmed engine. -/
theorem measure_instant_snapshot_update_witness :
    (mB.measure_instant (.ok [ethA]) 50000000).1 =
      .error (.insufficientTimeElapsed 100 50) ∧
    (mB.measure_instant (.ok [ethA]) 50000000).2.previous_stats =
      some ⟨0, 0, 0⟩ :=
  (measure_instant_snapshot_update mB ⟨0, 0, 0⟩ ⟨1000, 2000, 50000000⟩
      (.ok [ethA]) 50000000 rfl (by decide)).1
    (.insufficientTimeElapsed 100 50) (by decide)

/-- Claim C2: `collect_samples` skips `InsufficientTimeElapsed` ticks
(they do not abort and are never counted among the returned samples),
aborts on the first other failure propagating it, returns only the
successful samples (at most `n` of them), and fails with
`InsufficientTimeElapsed` when no sample was ever collected. -/
theorem collect_samples_spec (interval_ns : Nat)
    (outcomes : List (Except NetworkError NetworkSpeed))
    (hn : 1 ≤ outcomes.length) :
    (∀ e, firstFatal outcomes = some e →
       collect_samples interval_ns outcomes = .error e) ∧
    (firstFatal outcomes = none →
       (successesOf outcomes = [] →
          collect_samples interval_ns outcomes =
            .error (.insufficientTimeElapsed (as_millis_u64 interval_ns) 0)) ∧
       (successesOf outcomes ≠ [] →
          collect_samples interval_ns outcomes = .ok (successesOf outcomes))) ∧
    (successesOf outcomes).length ≤ outcomes.length := by
  refine ⟨?_, ?_, List.length_filterMap_le _ _⟩
  · intro e h
    unfold collect_samples
    rw [(collectLoop_eq outcomes).2 e h]
  · intro h
    have hloop := (collectLoop_eq outcomes).1 h
    constructor
    · intro hs
      unfold collect_samples
      rw [hloop, hs]
      rfl
    · intro hs
      unfold collect_samples
      rw [hloop]
      simp [List.isEmpty_iff, hs]

/-- Witness for claim C2: one skipped `InsufficientTimeElapsed` tick
followed by one success yields exactly the one successful sample. -/
theorem collect_samples_spec_witness :
    collect_samples 1000000
      [.error (.insufficientTimeElapsed 1 0), .ok ⟨5, 6, 7⟩] =
      .ok (successesOf [.error (.insufficientTimeElapsed 1 0), .ok ⟨5, 6, 7⟩]) :=
  ((collect_samples_spec 1000000
      [.error (.insufficientTimeElapsed 1 0), .ok ⟨5, 6, 7⟩]
      (by decide)).2.1 (by decide)).2 (by decide)

/-- Claim C3, counterexample: the first `measure()` on a fresh
`Instant`-mode engine is NOT failure-free for every enumeration
outcome: when every enumerated descriptor is filtered out (here: the
provider returns an empty table) the call fails with
`NoInterfacesFound` instead of returning the zero speed. -/
theorem measure_instant_fresh_counterexample :
    mA.previous_stats = none ∧
    (mA.measure_instant (.ok []) 1).1 = .error .noInterfacesFound := by decide

/-- Claim C3 (amended): on a fresh engine (`previous_snapshot = None`)
in `Instant` mode, `measure()` returns the zero speed {0,0} whenever
the snapshot capture succeeds; a capture failure (enumeration error or
`NoInterfacesFound`) propagates unchanged. -/
theorem measure_instant_fresh_spec (m : NetworkMonitor)
    (enum : Except NetworkError (List NetworkInterface)) (now : Nat)
    (hp : m.previous_stats = none) :
    (∀ c, (m.get_current_stats enum now).1 = .ok c →
       (m.measure_instant enum now).1 = .ok ⟨0, 0, now⟩) ∧
    (∀ e, (m.get_current_stats enum now).1 = .error e →
       (m.measure_instant enum now).1 = .error e) := by
  have hcold := measure_instant_cold_eq m enum now hp
  exact ⟨fun c hc => by rw [hcold.1 c hc], fun e he => by rw [hcold.2 e he]⟩

/-- Witness for the amended claim C3 at a fresh engine with one
accepted interface. -/
theorem measure_instant_fresh_spec_witness :
    (mA.measure_instant (.ok [ethA]) 3).1 = .ok ⟨0, 0, 3⟩ :=
  (measure_instant_fresh_spec mA (.ok [ethA]) 3 rfl).1 ⟨1000, 2000, 3⟩
    (by decide)

/-- Claim C4: for a validated config, `calculate_speed` rejects with
`InsufficientTimeElapsed{min, actual}` exactly when the elapsed time is
below `min_measurement_interval`; otherwise the upload and download
diffs are the wrapping subtractions of the counters, a diff above
`max_counter_wrap_threshold` gives `CalculationOverflow` and never a
speed, and otherwise the result is the floored rates
`⌊diff / elapsed_seconds⌋`, computed independently per direction. -/
theorem calculate_speed_spec (m : NetworkMonitor)
    (hv : m.config.validate = .ok ())
    (current previous : InterfaceStats) (timestamp : Nat) :
    (timestamp - previous.last_update < m.config.min_measurement_interval →
      m.calculate_speed current previous timestamp =
        .error (.insufficientTimeElapsed
          (as_millis_u64 m.config.min_measurement_interval)
          (as_millis_u64 (timestamp - previous.last_update)))) ∧
    (m.config.min_measurement_interval ≤ timestamp - previous.last_update →
      ((m.config.max_counter_wrap_threshold <
          wrapping_sub_u64 current.bytes_sent previous.bytes_sent ∨
        m.config.max_counter_wrap_threshold <
          wrapping_sub_u64 current.bytes_received previous.bytes_received) →
        m.calculate_speed current previous timestamp =
          .error .calculationOverflow) ∧
      (wrapping_sub_u64 current.bytes_sent previous.bytes_sent ≤
          m.config.max_counter_wrap_threshold →
       wrapping_sub_u64 current.bytes_received previous.bytes_received ≤
          m.config.max_counter_wrap_threshold →
        m.calculate_speed current previous timestamp =
          .ok { upload_bytes_per_sec :=
                  Nat.floor
                    ((wrapping_sub_u64 current.bytes_sent previous.bytes_sent : ℚ) /
                      (((timestamp - previous.last_update : ℕ) : ℚ) / 1000000000))
                download_bytes_per_sec :=
                  Nat.floor
                    ((wrapping_sub_u64 current.bytes_received previous.bytes_received : ℚ) /
                      (((timestamp - previous.last_update : ℕ) : ℚ) / 1000000000))
                timestamp := timestamp })) := by
  have hmin := validate_ok_min m.config hv
  unfold NetworkMonitor.calculate_speed
  constructor
  · intro h
    rw [if_pos h]
  · intro h
    rw [if_neg (by omega), if_neg (by omega)]
    constructor
    · intro hover
      rw [if_pos (by omega)]
    · intro hu hd
      rw [if_neg (by omega)]
      simp [floor_rate]

/-- Witness for claim C4: a 50 ms elapsed interval under a 100 ms
minimum is rejected with the millisecond payloads 100 and 50. -/
theorem calculate_speed_spec_witness :
    mA.config.validate = .ok () ∧
    50000000 - 0 < mA.config.min_measurement_interval ∧
    mA.calculate_speed ⟨1000, 2000, 50000000⟩ ⟨0, 0, 0⟩ 50000000 =
      .error (.insufficientTimeElapsed 100 50) :=
  ⟨rfl, by decide,
   (calculate_speed_spec mA rfl ⟨1000, 2000, 50000000⟩ ⟨0, 0, 0⟩ 50000000).1
     (by decide)⟩

/-- Claim C5: the history buffer length never exceeds the capacity
(for every capacity, zero included); a full buffer evicts exactly the
oldest entry (strict FIFO — A, B, C into capacity 2 leaves [B, C]); a
failed measurement appends nothing and propagates unchanged. -/
theorem track_speed_spec :
    (∀ (history : History) (max_history_size : Nat)
       (measurement : Except NetworkError NetworkSpeed),
       history.length ≤ max_history_size →
       (track_speed history max_history_size measurement).2.length ≤
         max_history_size) ∧
    (∀ (history : History) (max_history_size : Nat) (s : NetworkSpeed),
       history.length = max_history_size → 0 < max_history_size →
       (track_speed history max_history_size (.ok s)).2 =
         history.tail ++ [s]) ∧
    (∀ (history : History) (max_history_size : Nat) (e : NetworkError),
       track_speed history max_history_size (.error e) = (.error e, history)) ∧
    (track_speed (track_speed (track_speed [] 2 (.ok ⟨1, 0, 1⟩)).2 2
        (.ok ⟨2, 0, 2⟩)).2 2 (.ok ⟨3, 0, 3⟩)).2 = [⟨2, 0, 2⟩, ⟨3, 0, 3⟩] := by
  refine ⟨?_, ?_, fun _ _ _ => rfl, by decide⟩
  · intro history max_history_size measurement hlen
    rcases measurement with e | s
    · simpa [track_speed] using hlen
    · simp only [track_speed]
      split_ifs with h
      · simp only [List.length_tail, List.length_append, List.length_singleton]
        omega
      · simp only [List.length_append, List.length_singleton] at h ⊢
        omega
  · intro history max_history_size s hlen hpos
    simp only [track_speed]
    rw [if_pos (by simp [hlen])]
    exact tail_append_singleton history s (by rintro rfl; simp at hlen; omega)

/-- Witness for claim C5 at a full capacity-1 buffer and at a failing
measurement. -/
theorem track_speed_spec_witness :
    (track_speed [⟨1, 0, 1⟩] 1 (.ok ⟨2, 0, 2⟩)).2.length ≤ 1 ∧
    (track_speed [⟨1, 0, 1⟩] 1 (.ok ⟨2, 0, 2⟩)).2 =
      ([⟨1, 0, 1⟩] : History).tail ++ [⟨2, 0, 2⟩] ∧
    track_speed [⟨1, 0, 1⟩] 1 (.error .calculationOverflow) =
      (.error .calculationOverflow, [⟨1, 0, 1⟩]) :=
  ⟨track_speed_spec.1 [⟨1, 0, 1⟩] 1 (.ok ⟨2, 0, 2⟩) (by decide),
   track_speed_spec.2.1 [⟨1, 0, 1⟩] 1 ⟨2, 0, 2⟩ rfl (by decide),
   track_speed_spec.2.2.1 [⟨1, 0, 1⟩] 1 .calculationOverflow⟩

/-- Claim C6: `update_config` on a valid config adopts it, rebuilds the
interface directory (fresh empty cache) and resets `previous_snapshot`
to `None`, so the next `Instant` measurement with a successful capture
returns {0,0}; an invalid config yields `InvalidConfiguration` and
leaves config, directory and `previous_snapshot` untouched. -/
theorem update_config_spec (m : NetworkMonitor) (c : NetworkMonitorConfig) :
    (c.validate = .ok () →
       m.update_config c =
         (.ok (), { config := c, interface_cache := [],
                    previous_stats := none }) ∧
       (∀ enum now cNew,
          (((m.update_config c).2).get_current_stats enum now).1 = .ok cNew →
          (((m.update_config c).2).measure_instant enum now).1 =
            .ok ⟨0, 0, now⟩)) ∧
    (∀ e, c.validate = .error e →
       (∃ f, e = .invalidConfiguration f) ∧
       m.update_config c = (.error e, m)) := by
  constructor
  · intro hv
    have hup : m.update_config c =
        (.ok (), { config := c, interface_cache := [],
                   previous_stats := none }) := by
      unfold NetworkMonitor.update_config
      rw [hv]
    refine ⟨hup, ?_⟩
    intro enum now cNew hc
    have hp : ((m.update_config c).2).previous_stats = none := by rw [hup]
    rw [(measure_instant_cold_eq ((m.update_config c).2) enum now hp).1 cNew hc]
  · intro e he
    refine ⟨validate_error_shape c e he, ?_⟩
    unfold NetworkMonitor.update_config
    rw [he]

/-- Witness for claim C6: a warmed engine adopts `cfgA`, measures {0,0}
next, and rejects a zero wrap threshold unchanged. -/
theorem update_config_spec_witness :
    mB.update_config cfgA =
      (.ok (), { config := cfgA, interface_cache := [],
                 previous_stats := none }) ∧
    ((mB.update_config cfgA).2.measure_instant (.ok [ethA]) 7).1 =
      .ok ⟨0, 0, 7⟩ ∧
    (∃ f, NetworkError.invalidConfiguration
        "max_counter_wrap_threshold cannot be zero" = .invalidConfiguration f) ∧
    mB.update_config {cfgA with max_counter_wrap_threshold := 0} =
      (.error (.invalidConfiguration "max_counter_wrap_threshold cannot be zero"),
       mB) :=
  ⟨((update_config_spec mB cfgA).1 rfl).1,
   ((update_config_spec mB cfgA).1 rfl).2 (.ok [ethA]) 7 ⟨1000, 2000, 7⟩
     (by decide),
   ((update_config_spec mB
       {cfgA with max_counter_wrap_threshold := 0}).2 _ (by decide)).1,
   ((update_config_spec mB
       {cfgA with max_counter_wrap_threshold := 0}).2 _ (by decide)).2⟩

/-- Claim C7: `peak(window)` considers only entries with timestamp at
least `now - window`; it returns the qualifying entry with the largest
saturating total throughput, the most recently recorded one on ties
(every qualifying entry after the returned one is strictly smaller);
with no qualifying entry it returns `none`, not a zero speed. -/
theorem get_peak_speed_spec (history : History) (now duration : Nat) :
    (history.filter (fun s => now - duration ≤ s.timestamp) = [] →
       get_peak_speed history now duration = none) ∧
    (history.filter (fun s => now - duration ≤ s.timestamp) ≠ [] →
       ∃ s l1 l2,
         get_peak_speed history now duration = some s ∧
         history.filter (fun s => now - duration ≤ s.timestamp) =
           l1 ++ s :: l2 ∧
         (∀ x ∈ l1, x.total_bytes_per_sec ≤ s.total_bytes_per_sec) ∧
         (∀ x ∈ l2, x.total_bytes_per_sec < s.total_bytes_per_sec)) := by
  constructor
  · intro h
    simp only [get_peak_speed]
    split_ifs with he
    · rfl
    · rw [h]
      rfl
  · intro h
    have hne : ¬history.isEmpty = true := by
      intro he
      rw [List.isEmpty_iff] at he
      subst he
      simp at h
    simp only [get_peak_speed]
    rw [if_neg hne]
    exact maxByKeyLast_split _ _ h

/-- Witness for claim C7 on `hist4`, where two maximal totals tie and
one entry falls outside the window. -/
theorem get_peak_speed_spec_witness :
    ∃ s l1 l2,
      get_peak_speed hist4 100 80 = some s ∧
      hist4.filter (fun s => 100 - 80 ≤ s.timestamp) = l1 ++ s :: l2 ∧
      (∀ x ∈ l1, x.total_bytes_per_sec ≤ s.total_bytes_per_sec) ∧
      (∀ x ∈ l2, x.total_bytes_per_sec < s.total_bytes_per_sec) :=
  (get_peak_speed_spec hist4 100 80).2 (by decide)

/-- Claim C8: the directory accepts a descriptor iff it survives all
seven filters (allow-lists by index and by name pattern; loopback,
virtual and bluetooth exclusions; type-code and name exclusion lists),
and an empty accepted set clears the cache and fails with
`NoInterfacesFound`. -/
theorem should_include_interface_spec (c : NetworkMonitorConfig)
    (i : NetworkInterface) :
    (should_include_interface c i = true ↔ accepts_spec c i) ∧
    (∀ (cache : InterfaceCache) (l : List NetworkInterface),
       l.filter (should_include_interface c) = [] →
       get_active_interfaces c cache (.ok l) =
         (.error .noInterfacesFound, [])) := by
  constructor
  · unfold should_include_interface accepts_spec
    split_ifs with h1 h2 h3 h4 h5 h6 h7 <;>
      simp_all [List.isEmpty_iff, List.any_eq_true,
        Bool.and_eq_true, Bool.not_eq_true']
    constructor
    · rintro ⟨hp, hf⟩
      refine ⟨fun hne => hp.resolve_left hne, ?_⟩
      rcases hf with hf | hf
      · simp [hf]
      · exact hf
    · rintro ⟨hp, hf⟩
      refine ⟨?_, Or.inr hf⟩
      by_cases hpe : c.include_interface_name_patterns = []
      · exact Or.inl hpe
      · exact Or.inr (hp hpe)
  · intro cache l h
    simp [get_active_interfaces, h]

/-- Witness for claim C8: an enumeration whose accepted set is empty
clears a non-empty cache and fails with `NoInterfacesFound`. -/
theorem should_include_interface_spec_witness :
    get_active_interfaces cfgA [(5, ethA)] (.ok []) =
      (.error .noInterfacesFound, []) :=
  (should_include_interface_spec cfgA ethA).2 [(5, ethA)] [] rfl

/-- Claim C9: `validate()` succeeds iff none of the rejection
conditions hold (interval below 10 ms, zero wrap threshold, `Samples`
count below 2, zero `Windowed` duration or `Samples` interval), and
every failure is an `InvalidConfiguration` naming the offending
field. -/
theorem validate_spec (c : NetworkMonitorConfig) :
    (c.validate = .ok () ↔
      ¬(c.min_measurement_interval < 10000000 ∨
        c.max_counter_wrap_threshold = 0 ∨
        (∃ s iv, c.precision = .samples s iv ∧ s < 2) ∨
        c.precision = .windowed 0 ∨
        (∃ s, c.precision = .samples s 0))) ∧
    (∀ e, c.validate = .error e → ∃ f, e = .invalidConfiguration f) ∧
    (c.min_measurement_interval < 10000000 →
      c.validate = .error (.invalidConfiguration
        "min_measurement_interval must be at least 10ms")) ∧
    (10000000 ≤ c.min_measurement_interval → c.max_counter_wrap_threshold = 0 →
      c.validate = .error (.invalidConfiguration
        "max_counter_wrap_threshold cannot be zero")) ∧
    (10000000 ≤ c.min_measurement_interval → c.max_counter_wrap_threshold ≠ 0 →
      ∀ s iv, c.precision = .samples s iv → s < 2 →
      c.validate = .error (.invalidConfiguration
        "precision.samples.samples must be >= 2")) ∧
    (10000000 ≤ c.min_measurement_interval → c.max_counter_wrap_threshold ≠ 0 →
      c.precision = .windowed 0 →
      c.validate = .error (.invalidConfiguration
        "precision.windowed.duration must be > 0")) ∧
    (10000000 ≤ c.min_measurement_interval → c.max_counter_wrap_threshold ≠ 0 →
      ∀ s, c.precision = .samples s 0 → 2 ≤ s →
      c.validate = .error (.invalidConfiguration
        "precision.samples.interval must be > 0")) := by
  refine ⟨?_, validate_error_shape c, ?_, ?_, ?_, ?_, ?_⟩ <;>
    rcases hp : c.precision with _ | d | ⟨s, iv⟩ <;>
    simp [NetworkMonitorConfig.validate, PrecisionMode.validate, hp] <;>
    split_ifs <;> simp_all

/-- Witness for claim C9: `cfgA` validates; dropping its interval to 0
fails naming `min_measurement_interval`. -/
theorem validate_spec_witness :
    cfgA.validate = .ok () ∧
    ({cfgA with min_measurement_interval := 0} : NetworkMonitorConfig).validate =
      .error (.invalidConfiguration
        "min_measurement_interval must be at least 10ms") ∧
    (∃ f, NetworkError.invalidConfiguration
        "min_measurement_interval must be at least 10ms" =
          .invalidConfiguration f) :=
  ⟨(validate_spec cfgA).1.mpr (by simp [cfgA]),
   (validate_spec _).2.2.1 (by norm_num [cfgA]),
   (validate_spec ({cfgA with min_measurement_interval := 0})).2.1 _
     ((validate_spec _).2.2.1 (by norm_num [cfgA]))⟩

/-- Claim C10: `measure_average_speed` divides the whole-millisecond
values of the two durations with no guard on the divisor: any non-zero
`sample_interval` below one millisecond has `as_millis() == 0` and the
division panics (the entry is not total), while an interval of at least
one millisecond always reaches the `sample_count` guard. -/
theorem measure_average_divisor_spec (sample_interval_ns : Nat) :
    (0 < sample_interval_ns → sample_interval_ns < 1000000 →
       sample_interval_ns / 1000000 = 0 ∧
       ∀ measurement_duration_ns,
         measure_average_speed_entry measurement_duration_ns sample_interval_ns =
           none) ∧
    (1000000 ≤ sample_interval_ns →
       ∀ measurement_duration_ns, ∃ r,
         measure_average_speed_entry measurement_duration_ns sample_interval_ns =
           some r) := by
  constructor
  · intro h0 h1
    have hz : sample_interval_ns / 1000000 = 0 := Nat.div_eq_of_lt h1
    refine ⟨hz, fun d => ?_⟩
    simp [measure_average_speed_entry, measure_average_sample_count, hz]
  · intro h d
    have hz : sample_interval_ns / 1000000 ≠ 0 := by
      have := Nat.one_le_div_iff (by norm_num : 0 < 1000000) |>.mpr h
      omega
    simp only [measure_average_speed_entry, measure_average_sample_count,
      if_neg hz]
    split_ifs <;> exact ⟨_, rfl⟩

/-- Witness for claim C10 at a half-millisecond interval (panic) and a
one-millisecond interval (defined). -/
theorem measure_average_divisor_spec_witness :
    measure_average_speed_entry 123 500000 = none ∧
    ∃ r, measure_average_speed_entry 1000000000 1000000 = some r :=
  ⟨((measure_average_divisor_spec 500000).1 (by decide) (by decide)).2 123,
   (measure_average_divisor_spec 1000000).2 (by decide) 1000000000⟩

end NetSpeed
